import Mathlib

/-!
Shallow embedding of the e-learning backend (`main.py`, `schemas.py`): the
resource schemas, the response mappers, and the request handlers, together
with a model of the document store.  The store adapter itself
(`database.py`: `db`, `create_document`, `get_documents`) is not part of the
sources; where its behaviour matters it is modelled from the description of
the store collaborator in the specification (`insert`, `find`, `find_one` over
JSON-like documents, store-native = insertion order).
-/

namespace Elearn

/-- Outcome of running a Python handler body: a normal return value, a raised
`HTTPException code detail`, or a plain (non-HTTP) exception carrying the
stringified failure `str(e)`. -/
inductive PyResult (α : Type) where
  | ok (a : α)
  | httpExc (code : Nat) (detail : String)
  | exc (msg : String)
deriving DecidableEq

/-- A hexadecimal digit, either case (`string.hexdigits`). -/
def isHexDigitChar (c : Char) : Bool :=
  c.isDigit || ('a' ≤ c && c ≤ 'f') || ('A' ≤ c && c ≤ 'F')

/-- Model of `bson.objectid.ObjectId.is_valid` on a string argument: true exactly for
24-character hexadecimal strings. -/
def oidIsValid (s : String) : Bool :=
  s.length == 24 && s.data.all isHexDigitChar

/-- Numeric value of a hex digit (0 on non-hex input, which never occurs on
validated strings). -/
def hexDigitVal (c : Char) : Nat :=
  if c.isDigit then c.toNat - '0'.toNat
  else if 'a' ≤ c && c ≤ 'f' then c.toNat - 'a'.toNat + 10
  else if 'A' ≤ c && c ≤ 'F' then c.toNat - 'A'.toNat + 10
  else 0

/-- Model of `ObjectId(s)` for a valid 24-hex-character string: the denoted 12-byte
identifier, as a natural number.  Two strings differing only in hex-digit
case denote the same identifier, as in bson. -/
def oidParse (s : String) : Nat :=
  s.data.foldl (fun a c => 16 * a + hexDigitVal c) 0

/-- Lowercase hex digit for a value below 16. -/
def hexDigitChar (n : Nat) : Char :=
  if n < 10 then Char.ofNat ('0'.toNat + n) else Char.ofNat ('a'.toNat + (n - 10))

/-- Model of `str(oid)`: the 24-character lowercase hexadecimal rendering of an
ObjectId. -/
def oidRender (n : Nat) : String :=
  ⟨(List.range 24).map (fun i => hexDigitChar (n / 16 ^ (23 - i) % 16))⟩

/-- An untyped JSON-like value, as found in a parsed request body field. -/
inductive JValue where
  | jNull
  | jStr (s : String)
  | jInt (n : Int)
  | jBool (b : Bool)
  | jList (xs : List JValue)

/-! ## Resource schemas (`schemas.py`) — the validated, typed records -/

/-- A validated Course record (`schemas.Course`). -/
structure Course where
  title : String
  description : String
  category : String
  level : String := "Beginner"
  author : String
  thumbnail_url : Option String := none
  tags : List String := []
  is_premium : Bool := false
  is_free_access : Bool := true
deriving DecidableEq

/-- A validated Lesson record (`schemas.Lesson`). -/
structure Lesson where
  course_id : String
  title : String
  content : Option String := none
  video_url : Option String := none
  lessonOrder : Int := 1
deriving DecidableEq

/-- A validated Enrollment record (`schemas.Enrollment`). -/
structure Enrollment where
  course_id : String
  learner_name : Option String := none
  email : Option String := none
deriving DecidableEq

/-! ## Raw Course input and schema validation

`Course` is a pydantic model: a raw JSON body is accepted exactly when every
declared field is well-typed and within its declared bounds, with defaults
substituted for absent optional fields.  Unknown extra keys are ignored, so a
raw body is modelled by its projection onto the declared fields, each either
absent or an arbitrary JSON value. -/

/-- Raw `POST /api/courses` body, projected onto the Course schema fields. -/
structure RawCourse where
  title : Option JValue := none
  description : Option JValue := none
  category : Option JValue := none
  level : Option JValue := none
  author : Option JValue := none
  thumbnail_url : Option JValue := none
  tags : Option JValue := none
  is_premium : Option JValue := none
  is_free_access : Option JValue := none

/-- Check of a required `str` field carrying `min_length`/`max_length`
bounds: the field must be present, a string, and within bounds. -/
def reqStr (v : Option JValue) (lo hi : Nat) : Option String :=
  match v with
  | some (JValue.jStr s) => if lo ≤ s.length && s.length ≤ hi then some s else none
  | _ => none

/-- Check of a `str` field with a default: absent means the default, present
must be a string (a JSON `null` is not a string and is rejected). -/
def optStrDefault (v : Option JValue) (d : String) : Option String :=
  match v with
  | none => some d
  | some (JValue.jStr s) => some s
  | some _ => none

/-- Modelled from the spec: pydantic `HttpUrl` well-formedness — a
"well-formed absolute URL", i.e. an `http`/`https` scheme, `://`, and a
nonempty remainder (host).  The exact pydantic URL grammar lives in the
external library; the spec asks only for well-formed absolute URLs. -/
def isHttpUrl (s : String) : Bool :=
  (s.startsWith "http://" && 7 < s.length) || (s.startsWith "https://" && 8 < s.length)

/-- Check of the `Optional[HttpUrl]` field: absent or `null` means `none`;
present must be a string that is a well-formed absolute URL. -/
def optUrl (v : Option JValue) : Option (Option String) :=
  match v with
  | none => some none
  | some JValue.jNull => some none
  | some (JValue.jStr s) => if isHttpUrl s then some (some s) else none
  | some _ => none

/-- Fallible element-wise mapping (a Python list comprehension over a
fallible function): the first element failure aborts the whole result. -/
def mapAll (f : α → Option β) : List α → Option (List β)
  | [] => some []
  | a :: rest =>
      match f a with
      | none => none
      | some b =>
          match mapAll f rest with
          | none => none
          | some bs => some (b :: bs)

/-- Check of the `List[str]` field with `default_factory=list`: absent means
`[]`; present must be a list of strings. -/
def strList (v : Option JValue) : Option (List String) :=
  match v with
  | none => some []
  | some (JValue.jList xs) =>
      mapAll (fun x => match x with | JValue.jStr s => some s | _ => none) xs
  | some _ => none

/-- Check of a `bool` field with a default. -/
def optBool (v : Option JValue) (d : Bool) : Option Bool :=
  match v with
  | none => some d
  | some (JValue.jBool b) => some b
  | some _ => none

/-- Framework-level validation of a raw Course body against the
`schemas.Course` pydantic model. -/
def validateCourse (r : RawCourse) : Option Course :=
  match reqStr r.title 3 120, reqStr r.description 10 2000, reqStr r.category 2 60,
        optStrDefault r.level "Beginner", reqStr r.author 2 80, optUrl r.thumbnail_url,
        strList r.tags, optBool r.is_premium false, optBool r.is_free_access true with
  | some title, some description, some category, some level, some author,
    some thumbnail_url, some tags, some is_premium, some is_free_access =>
      some { title, description, category, level, author, thumbnail_url,
             tags, is_premium, is_free_access }
  | _, _, _, _, _, _, _, _, _ => none

/-! ## Stored documents

The store is schemaless: beyond the store-assigned `_id` every field of a
stored document may be absent (documents can be inserted out-of-band).  The
`_id` is modelled by the field `oid`. -/

/-- A raw document of the `course` collection. -/
structure CourseDoc where
  oid : Nat
  title : Option String := none
  description : Option String := none
  category : Option String := none
  level : Option String := none
  author : Option String := none
  thumbnail_url : Option String := none
  tags : Option (List String) := none
  is_premium : Option Bool := none
  is_free_access : Option Bool := none
deriving DecidableEq

/-- A raw document of the `lesson` collection. -/
structure LessonDoc where
  oid : Nat
  course_id : Option String := none
  title : Option String := none
  content : Option String := none
  video_url : Option String := none
  lessonOrder : Option Int := none
deriving DecidableEq

/-- A raw document of the `enrollment` collection. -/
structure EnrollmentDoc where
  oid : Nat
  course_id : Option String := none
  learner_name : Option String := none
  email : Option String := none
deriving DecidableEq

/-- Serialization of a validated Course on insert (`create_document`). -/
def courseToDoc (c : Course) (oid : Nat) : CourseDoc :=
  { oid, title := some c.title, description := some c.description,
    category := some c.category, level := some c.level, author := some c.author,
    thumbnail_url := c.thumbnail_url, tags := some c.tags,
    is_premium := some c.is_premium, is_free_access := some c.is_free_access }

/-- Serialization of a validated Lesson on insert. -/
def lessonToDoc (l : Lesson) (oid : Nat) : LessonDoc :=
  { oid, course_id := some l.course_id, title := some l.title,
    content := l.content, video_url := l.video_url,
    lessonOrder := some l.lessonOrder }

/-- Serialization of a validated Enrollment on insert. -/
def enrollmentToDoc (e : Enrollment) (oid : Nat) : EnrollmentDoc :=
  { oid, course_id := some e.course_id, learner_name := e.learner_name,
    email := e.email }

/-- Modelled from the spec: the document store state — the three collections
`course`, `lesson`, `enrollment` in store-native (insertion) order, plus the
source of fresh store-assigned identifiers. -/
structure Store where
  courses : List CourseDoc := []
  lessons : List LessonDoc := []
  enrollments : List EnrollmentDoc := []
  nextOid : Nat := 0
deriving DecidableEq

/-! ## Response models and mappers (`main.py`) -/

/-- The `CourseResponse` pydantic model. -/
structure CourseResponse where
  id : String
  title : String
  description : String
  category : String
  level : String
  author : String
  thumbnail_url : Option String := none
  tags : List String := []
  is_premium : Bool
  is_free_access : Bool
deriving DecidableEq

/-- The `LessonResponse` pydantic model. -/
structure LessonResponse where
  id : String
  course_id : String
  title : String
  content : Option String := none
  video_url : Option String := none
  lessonOrder : Int
deriving DecidableEq

/-- Python `str` applied to a possibly absent stored string:
`str(None)` is the literal string `"None"`. -/
def pyStr : Option String → String
  | none => "None"
  | some s => s

/-- The mapper `to_course_response`: builds `CourseResponse` from a raw document with
`doc.get`.  `tags`, `is_premium`, `is_free_access` carry `.get` defaults;
the remaining `str`/`bool` response fields are non-optional, so pydantic
rejects the construction (a `ValidationError`, i.e. `none` here) when
`title`, `description`, `category`, `level` or `author` is absent. -/
def to_course_response (doc : CourseDoc) : Option CourseResponse :=
  match doc.title, doc.description, doc.category, doc.level, doc.author with
  | some title, some description, some category, some level, some author =>
      some { id := oidRender doc.oid, title, description, category, level, author,
             thumbnail_url := doc.thumbnail_url,
             tags := doc.tags.getD [],
             is_premium := doc.is_premium.getD false,
             is_free_access := doc.is_free_access.getD true }
  | _, _, _, _, _ => none

/-- The mapper `to_lesson_response`: `course_id` goes through `str(...)` (so an absent
`course_id` renders as `"None"`), `order` carries the `.get` default `1`,
and an absent `title` fails response validation. -/
def to_lesson_response (doc : LessonDoc) : Option LessonResponse :=
  match doc.title with
  | some title =>
      some { id := oidRender doc.oid, course_id := pyStr doc.course_id, title,
             content := doc.content, video_url := doc.video_url,
             lessonOrder := doc.lessonOrder.getD 1 }
  | none => none

/-! ## Handlers

Each handler is split into its `try`-body and the common boundary
`except HTTPException: raise` / `except Exception as e:
raise HTTPException(status_code=500, detail=str(e))`.  Store failures are
injected through a `StoreFault`; each handler also reports the trace of
store operations it performed (or attempted), so "no store interaction"
is the empty trace. -/

/-- A store operation performed by a handler. -/
inductive StoreOp where
  | findOneCourse (oid : Nat)
  | insertDoc (collection : String)
  | findDocs (collection : String)
deriving DecidableEq

/-- An injected store failure: which kind of store call raises, and the
stringified message `str(e)` it raises with. -/
inductive StoreFault where
  | noFault
  | onFindOne (msg : String)
  | onInsert (msg : String)
  | onFind (msg : String)
deriving DecidableEq

/-- The message a fault would raise with, if any. -/
def faultMsg : StoreFault → Option String
  | StoreFault.noFault => none
  | StoreFault.onFindOne m => some m
  | StoreFault.onInsert m => some m
  | StoreFault.onFind m => some m

/-- The handler boundary: HTTP exceptions re-raise unchanged, any other
exception becomes `HTTPException(500, str(e))`. -/
def handlerBoundary {α : Type} : PyResult α → PyResult α
  | PyResult.exc m => PyResult.httpExc 500 m
  | r => r

/-- Python truthiness of an optional string (`if category:`): `None` and the
empty string are falsy. -/
def truthy : Option String → Bool
  | none => false
  | some s => !(s == "")

/-- The `POST /api/courses` body: `create_document("course", course)` and return
`{"id": inserted_id}`. -/
def create_course_body (fault : StoreFault) (course : Course) (s : Store) :
    PyResult String × Store × List StoreOp :=
  match fault with
  | StoreFault.onInsert m => (PyResult.exc m, s, [StoreOp.insertDoc "course"])
  | _ =>
      (PyResult.ok (oidRender s.nextOid),
       { s with courses := s.courses ++ [courseToDoc course s.nextOid],
                nextOid := s.nextOid + 1 },
       [StoreOp.insertDoc "course"])

/-- The `create_course` handler (body plus boundary). -/
def create_course (fault : StoreFault) (course : Course) (s : Store) :
    PyResult String × Store × List StoreOp :=
  (handlerBoundary (create_course_body fault course s).1,
   (create_course_body fault course s).2)

/-- The full `POST /api/courses` pipeline: FastAPI validates the raw body
against the Course schema before the handler runs; a validation failure is a
client error (HTTP 422) issued with no store interaction. -/
def create_course_endpoint (fault : StoreFault) (raw : RawCourse) (s : Store) :
    PyResult String × Store × List StoreOp :=
  match validateCourse raw with
  | none => (PyResult.httpExc 422 "validation_error", s, [])
  | some c => create_course fault c s

/-- The `filter_dict` built by `list_courses`: a `category` equality clause
when `category` is truthy, and the `$or` of two case-insensitive `$regex`
clauses over `title` and `description` when `search` is truthy. -/
structure CourseFilter where
  category : Option String := none
  search : Option String := none
deriving DecidableEq

/-- The `filter_dict` construction in `list_courses` (`if category:` /
`if search:` are Python truthiness tests). -/
def buildCourseFilter (category search : Option String) : CourseFilter :=
  { category := if truthy category then category else none,
    search := if truthy search then search else none }

/-- The characters of a string, lowercased. -/
def lowerChars (s : String) : List Char := s.data.map Char.toLower

/-- Whether `needle` occurs as a contiguous sublist of the second argument. -/
def hasSubstr (needle : List Char) : List Char → Bool
  | [] => needle.isEmpty
  | c :: rest => needle.isPrefixOf (c :: rest) || hasSubstr needle rest

/-- Modelled from the spec: the evaluation, by the store, of the `list_courses`
filter (`database.get_documents` and the store engine are outside the
sources).  Per §4.2, the `$regex`/`$options: "i"` clause matches a document
when `search` occurs as a case-insensitive substring of the field, the `$or`
is the logical OR of the two substring tests, the `category` clause is
equality on the stored field, and clauses combine with logical AND.  A
clause on an absent field does not match. -/
def courseMatches (f : CourseFilter) (d : CourseDoc) : Bool :=
  (match f.category with
   | some c => d.category == some c
   | none => true) &&
  (match f.search with
   | some q =>
       (d.title.isSome && hasSubstr (lowerChars q) (lowerChars (d.title.getD ""))) ||
       (d.description.isSome && hasSubstr (lowerChars q) (lowerChars (d.description.getD "")))
   | none => true)

/-- The `GET /api/courses` body: build `filter_dict`, `get_documents("course",
filter_dict)`, map each document through `to_course_response`. -/
def list_courses_body (fault : StoreFault) (category search : Option String)
    (s : Store) : PyResult (List CourseResponse) × List StoreOp :=
  let f := buildCourseFilter category search
  match fault with
  | StoreFault.onFind m => (PyResult.exc m, [StoreOp.findDocs "course"])
  | _ =>
      match mapAll to_course_response (s.courses.filter (courseMatches f)) with
      | some rs => (PyResult.ok rs, [StoreOp.findDocs "course"])
      | none => (PyResult.exc "validation error for CourseResponse",
                 [StoreOp.findDocs "course"])

/-- The `list_courses` handler (body plus boundary). -/
def list_courses (fault : StoreFault) (category search : Option String)
    (s : Store) : PyResult (List CourseResponse) × List StoreOp :=
  (handlerBoundary (list_courses_body fault category search s).1,
   (list_courses_body fault category search s).2)

/-- The `POST /api/lessons` body: reject a syntactically invalid `course_id`
(HTTP 400) before any store access; point-lookup the Course by `_id`
(HTTP 404 when absent); only then `create_document("lesson", lesson)`. -/
def create_lesson_body (fault : StoreFault) (lesson : Lesson) (s : Store) :
    PyResult String × Store × List StoreOp :=
  if !oidIsValid lesson.course_id then
    (PyResult.httpExc 400 "Invalid course_id", s, [])
  else
    match fault with
    | StoreFault.onFindOne m =>
        (PyResult.exc m, s, [StoreOp.findOneCourse (oidParse lesson.course_id)])
    | _ =>
        match s.courses.find? (fun c => c.oid == oidParse lesson.course_id) with
        | none =>
            (PyResult.httpExc 404 "Course not found", s,
             [StoreOp.findOneCourse (oidParse lesson.course_id)])
        | some _ =>
            match fault with
            | StoreFault.onInsert m =>
                (PyResult.exc m, s,
                 [StoreOp.findOneCourse (oidParse lesson.course_id),
                  StoreOp.insertDoc "lesson"])
            | _ =>
                (PyResult.ok (oidRender s.nextOid),
                 { s with lessons := s.lessons ++ [lessonToDoc lesson s.nextOid],
                          nextOid := s.nextOid + 1 },
                 [StoreOp.findOneCourse (oidParse lesson.course_id),
                  StoreOp.insertDoc "lesson"])

/-- The `create_lesson` handler (body plus boundary). -/
def create_lesson (fault : StoreFault) (lesson : Lesson) (s : Store) :
    PyResult String × Store × List StoreOp :=
  (handlerBoundary (create_lesson_body fault lesson s).1,
   (create_lesson_body fault lesson s).2)

/-- The `GET /api/courses/x/lessons` body: reject a syntactically
invalid `course_id` (HTTP 400); otherwise `get_documents("lesson",
{"course_id": course_id})` — no Course-existence lookup — and map the
documents through `to_lesson_response`. -/
def list_lessons_body (fault : StoreFault) (course_id : String) (s : Store) :
    PyResult (List LessonResponse) × List StoreOp :=
  if !oidIsValid course_id then
    (PyResult.httpExc 400 "Invalid course_id", [])
  else
    match fault with
    | StoreFault.onFind m => (PyResult.exc m, [StoreOp.findDocs "lesson"])
    | _ =>
        match mapAll to_lesson_response
            (s.lessons.filter (fun l => l.course_id == some course_id)) with
        | some rs => (PyResult.ok rs, [StoreOp.findDocs "lesson"])
        | none => (PyResult.exc "validation error for LessonResponse",
                   [StoreOp.findDocs "lesson"])

/-- The `list_lessons` handler (body plus boundary). -/
def list_lessons (fault : StoreFault) (course_id : String) (s : Store) :
    PyResult (List LessonResponse) × List StoreOp :=
  (handlerBoundary (list_lessons_body fault course_id s).1,
   (list_lessons_body fault course_id s).2)

/-- The `POST /api/enroll` body: same two-step precondition as `create_lesson`,
then `create_document("enrollment", enrollment)`. -/
def enroll_body (fault : StoreFault) (e : Enrollment) (s : Store) :
    PyResult String × Store × List StoreOp :=
  if !oidIsValid e.course_id then
    (PyResult.httpExc 400 "Invalid course_id", s, [])
  else
    match fault with
    | StoreFault.onFindOne m =>
        (PyResult.exc m, s, [StoreOp.findOneCourse (oidParse e.course_id)])
    | _ =>
        match s.courses.find? (fun c => c.oid == oidParse e.course_id) with
        | none =>
            (PyResult.httpExc 404 "Course not found", s,
             [StoreOp.findOneCourse (oidParse e.course_id)])
        | some _ =>
            match fault with
            | StoreFault.onInsert m =>
                (PyResult.exc m, s,
                 [StoreOp.findOneCourse (oidParse e.course_id),
                  StoreOp.insertDoc "enrollment"])
            | _ =>
                (PyResult.ok (oidRender s.nextOid),
                 { s with enrollments := s.enrollments ++ [enrollmentToDoc e s.nextOid],
                          nextOid := s.nextOid + 1 },
                 [StoreOp.findOneCourse (oidParse e.course_id),
                  StoreOp.insertDoc "enrollment"])

/-- The `enroll` handler (body plus boundary). -/
def enroll (fault : StoreFault) (e : Enrollment) (s : Store) :
    PyResult String × Store × List StoreOp :=
  (handlerBoundary (enroll_body fault e s).1,
   (enroll_body fault e s).2)

/-! ## Health check (`GET /test`) -/

/-- Environment configuration visible to `test_database` via `os.getenv`. -/
structure Env where
  database_url : Option String := none
  database_name : Option String := none
deriving DecidableEq

/-- The global `db` handle when it is not `None`: its `name` property and
the outcome of `list_collection_names()` (the store probe that may fail). -/
structure DbConn where
  name : String
  listCollections : Except String (List String)

/-- The `/test` response dictionary. -/
structure TestResponse where
  backend : String
  database : String
  database_url : Option String
  database_name : Option String
  connection_status : String
  collections : List String
deriving DecidableEq

/-- The handler `test_database`: builds the diagnostic dictionary, probing the store
inside nested `try`/`except` blocks, then overwrites `database_url` /
`database_name` from the environment; it returns the dictionary (HTTP 200)
on every path. -/
def test_database (env : Env) (db : Option DbConn) : PyResult TestResponse :=
  let r0 : TestResponse :=
    { backend := "✅ Running", database := "❌ Not Available",
      database_url := none, database_name := none,
      connection_status := "Not Connected", collections := [] }
  let r1 :=
    match db with
    | some conn =>
        let r := { r0 with database := "✅ Available",
                           database_url := some "✅ Configured",
                           database_name := some conn.name,
                           connection_status := "Connected" }
        match conn.listCollections with
        | Except.ok cols =>
            { r with collections := cols.take 10,
                     database := "✅ Connected & Working" }
        | Except.error e =>
            { r with database := "⚠️  Connected but Error: " ++ e.take 50 }
    | none => { r0 with database := "⚠️  Available but not initialized" }
  PyResult.ok
    { r1 with
      database_url := some (if truthy env.database_url then "✅ Set" else "❌ Not Set"),
      database_name := some (if truthy env.database_name then "✅ Set" else "❌ Not Set") }

/-! ## Store invariant

Lessons enter the store only through `create_lesson`, which verifies that
the referenced Course exists, and nothing is ever deleted; so in every
reachable store state the `course_id` of each stored lesson resolves to a stored
course. -/

/-- Every stored lesson references a stored course. -/
def lessonRefsOk (s : Store) : Prop :=
  ∀ l ∈ s.lessons, ∃ cs, l.course_id = some cs ∧
    ∃ c ∈ s.courses, c.oid = oidParse cs

/-! ## Helper lemmas -/

theorem mapAll_isSome (f : α → Option β) (l : List α) :
    (mapAll f l).isSome = l.all (fun a => (f a).isSome) := by
  induction l with
  | nil => rfl
  | cons a rest ih =>
      cases hf : f a <;> cases hm : mapAll f rest <;> simp_all [mapAll]

theorem mapAll_total (f : α → Option β) (l : List α)
    (h : ∀ a ∈ l, (f a).isSome) : ∃ bs, mapAll f l = some bs := by
  rw [← Option.isSome_iff_exists, mapAll_isSome, List.all_eq_true]
  exact fun a ha => h a ha

theorem mapAll_append_singleton (f : α → Option β) (x : α) (y : β)
    (hx : f x = some y) :
    ∀ (l : List α) (bs : List β), mapAll f l = some bs →
      mapAll f (l ++ [x]) = some (bs ++ [y])
  | [], bs, hl => by
      simp only [mapAll] at hl
      cases hl
      simp [mapAll, hx]
  | a :: rest, bs, hl => by
      cases hf : f a with
      | none => simp [mapAll, hf] at hl
      | some b =>
          cases hm : mapAll f rest with
          | none => simp [mapAll, hf, hm] at hl
          | some cs =>
              have hrec := mapAll_append_singleton f x y hx rest cs hm
              simp only [mapAll, hf, hm] at hl
              cases hl
              simp [mapAll, hf, hrec]

/-! ## Claims -/

/-- C1: for every CreateLesson and every Enroll request, a syntactically
invalid `course_id` is rejected with HTTP 400 before any store operation
(empty trace, state unchanged, uniformly in the behaviour of the store); a valid
`course_id` triggers exactly a point lookup of the Course, yielding HTTP 404
with no insert when it is absent; only when both checks pass is the Lesson /
Enrollment document inserted. -/
theorem createLesson_enroll_check_order
    (l : Lesson) (e : Enrollment) (s : Store) (fault : StoreFault) :
    (oidIsValid l.course_id = false →
      create_lesson fault l s = (PyResult.httpExc 400 "Invalid course_id", s, [])) ∧
    (oidIsValid l.course_id = true →
      s.courses.find? (fun c => c.oid == oidParse l.course_id) = none →
      create_lesson StoreFault.noFault l s =
        (PyResult.httpExc 404 "Course not found", s,
         [StoreOp.findOneCourse (oidParse l.course_id)])) ∧
    (∀ c0, oidIsValid l.course_id = true →
      s.courses.find? (fun c => c.oid == oidParse l.course_id) = some c0 →
      create_lesson StoreFault.noFault l s =
        (PyResult.ok (oidRender s.nextOid),
         { s with lessons := s.lessons ++ [lessonToDoc l s.nextOid],
                  nextOid := s.nextOid + 1 },
         [StoreOp.findOneCourse (oidParse l.course_id), StoreOp.insertDoc "lesson"])) ∧
    (oidIsValid e.course_id = false →
      enroll fault e s = (PyResult.httpExc 400 "Invalid course_id", s, [])) ∧
    (oidIsValid e.course_id = true →
      s.courses.find? (fun c => c.oid == oidParse e.course_id) = none →
      enroll StoreFault.noFault e s =
        (PyResult.httpExc 404 "Course not found", s,
         [StoreOp.findOneCourse (oidParse e.course_id)])) ∧
    (∀ c0, oidIsValid e.course_id = true →
      s.courses.find? (fun c => c.oid == oidParse e.course_id) = some c0 →
      enroll StoreFault.noFault e s =
        (PyResult.ok (oidRender s.nextOid),
         { s with enrollments := s.enrollments ++ [enrollmentToDoc e s.nextOid],
                  nextOid := s.nextOid + 1 },
         [StoreOp.findOneCourse (oidParse e.course_id), StoreOp.insertDoc "enrollment"])) := by
  refine ⟨?_, ?_, ?_, ?_, ?_, ?_⟩
  · intro h
    simp [create_lesson, create_lesson_body, h, handlerBoundary]
  · intro hv hn
    simp [create_lesson, create_lesson_body, hv, hn, handlerBoundary]
  · intro c0 hv hf
    simp [create_lesson, create_lesson_body, hv, hf, handlerBoundary]
  · intro h
    simp [enroll, enroll_body, h, handlerBoundary]
  · intro hv hn
    simp [enroll, enroll_body, hv, hn, handlerBoundary]
  · intro c0 hv hf
    simp [enroll, enroll_body, hv, hf, handlerBoundary]

/-- A syntactically valid ObjectId string used by the witnesses. -/
def wCid : String := "0123456789abcdef01234567"

/-- A lesson whose `course_id` is valid but resolves to no course in an
empty store. -/
def wLesson : Lesson :=
  { course_id := wCid, title := "Introduction" }

/-- An enrollment with the same dangling `course_id`. -/
def wEnrollment : Enrollment :=
  { course_id := wCid, learner_name := some "Sam" }

/-- The empty store. -/
def wEmptyStore : Store := {}

/-- Witness for C1: on the empty store, a valid but dangling `course_id`
makes CreateLesson fail with 404 after exactly the point lookup. -/
theorem createLesson_enroll_check_order_witness :
    oidIsValid wLesson.course_id = true ∧
    wEmptyStore.courses.find? (fun c => c.oid == oidParse wLesson.course_id) = none ∧
    create_lesson StoreFault.noFault wLesson wEmptyStore =
      (PyResult.httpExc 404 "Course not found", wEmptyStore,
       [StoreOp.findOneCourse (oidParse wLesson.course_id)]) :=
  ⟨by decide, rfl,
   (createLesson_enroll_check_order wLesson wEnrollment wEmptyStore
      StoreFault.noFault).2.1 (by decide) rfl⟩

/-- C2: a Lesson input whose `course_id` is a valid identifier resolving to
no stored Course makes CreateLesson fail with `not_found` (HTTP 404), and
the lesson collection is unchanged. -/
theorem createLesson_nonexistent_course
    (l : Lesson) (s : Store)
    (hv : oidIsValid l.course_id = true)
    (hn : s.courses.find? (fun c => c.oid == oidParse l.course_id) = none) :
    create_lesson StoreFault.noFault l s =
      (PyResult.httpExc 404 "Course not found", s,
       [StoreOp.findOneCourse (oidParse l.course_id)]) ∧
    (create_lesson StoreFault.noFault l s).2.1.lessons = s.lessons := by
  constructor
  · simp [create_lesson, create_lesson_body, hv, hn, handlerBoundary]
  · simp [create_lesson, create_lesson_body, hv, hn]

/-- Witness for C2. -/
theorem createLesson_nonexistent_course_witness :
    oidIsValid wLesson.course_id = true ∧
    wEmptyStore.courses.find? (fun c => c.oid == oidParse wLesson.course_id) = none ∧
    (create_lesson StoreFault.noFault wLesson wEmptyStore).2.1.lessons =
      wEmptyStore.lessons :=
  ⟨by decide, rfl,
   (createLesson_nonexistent_course wLesson wEmptyStore (by decide) rfl).2⟩

/-- The handler `create_lesson` preserves the referential invariant: the
inserted lesson references the course that its point lookup just found. -/
theorem create_lesson_preserves_refsOk (fault : StoreFault) (l : Lesson)
    (s : Store) (h : lessonRefsOk s) :
    lessonRefsOk (create_lesson fault l s).2.1 := by
  unfold create_lesson create_lesson_body
  cases hval : oidIsValid l.course_id with
  | false => simpa [hval] using h
  | true =>
      cases fault with
      | onFindOne m => simpa [hval] using h
      | noFault =>
          cases hf : s.courses.find? (fun c => c.oid == oidParse l.course_id) with
          | none => simpa [hval, hf] using h
          | some c0 =>
              simp only [hval, hf, Bool.not_true, Bool.false_eq_true, if_false]
              intro l' hl'
              simp only [lessonRefsOk] at h
              rcases List.mem_append.mp hl' with hmem | hnew
              · exact h l' hmem
              · have hl2 : l' = lessonToDoc l s.nextOid := by simpa using hnew
                subst hl2
                refine ⟨l.course_id, rfl, c0, List.mem_of_find?_eq_some hf, ?_⟩
                have := List.find?_some hf
                simpa using this
      | onInsert m =>
          cases hf : s.courses.find? (fun c => c.oid == oidParse l.course_id) with
          | none => simpa [hval, hf] using h
          | some c0 => simpa [hval, hf] using h
      | onFind m =>
          cases hf : s.courses.find? (fun c => c.oid == oidParse l.course_id) with
          | none => simpa [hval, hf] using h
          | some c0 =>
              simp only [hval, hf, Bool.not_true, Bool.false_eq_true, if_false]
              intro l' hl'
              simp only [lessonRefsOk] at h
              rcases List.mem_append.mp hl' with hmem | hnew
              · exact h l' hmem
              · have hl2 : l' = lessonToDoc l s.nextOid := by simpa using hnew
                subst hl2
                refine ⟨l.course_id, rfl, c0, List.mem_of_find?_eq_some hf, ?_⟩
                have := List.find?_some hf
                simpa using this

/-- C5: ListLessons rejects a syntactically invalid `course_id` with a
client error (HTTP 400, uniformly in the behaviour of the store); for a valid
`course_id` that resolves to no stored Course it performs only the lesson
query — no Course point lookup appears in the trace — and returns the empty
sequence rather than a 404, in every store state satisfying the referential
invariant. -/
theorem listLessons_no_existence_check (cid : String) (s : Store) :
    (∀ fault, oidIsValid cid = false →
      list_lessons fault cid s = (PyResult.httpExc 400 "Invalid course_id", [])) ∧
    (oidIsValid cid = true → lessonRefsOk s →
      (∀ c ∈ s.courses, c.oid ≠ oidParse cid) →
      list_lessons StoreFault.noFault cid s =
        (PyResult.ok [], [StoreOp.findDocs "lesson"])) := by
  constructor
  · intro fault h
    simp [list_lessons, list_lessons_body, h, handlerBoundary]
  · intro hv hinv hnc
    have hfil : s.lessons.filter (fun l => l.course_id == some cid) = [] := by
      rw [List.filter_eq_nil_iff]
      intro l hl hEq
      obtain ⟨cs, hcs, c, hcmem, hoid⟩ := hinv l hl
      have hcid : l.course_id = some cid := by simpa using hEq
      rw [hcs] at hcid
      obtain rfl : cs = cid := by simpa using hcid
      exact hnc c hcmem hoid
    simp [list_lessons, list_lessons_body, hv, hfil, mapAll, handlerBoundary]

/-- Witness for C5: a valid identifier, empty store. -/
theorem listLessons_no_existence_check_witness :
    oidIsValid wCid = true ∧
    list_lessons StoreFault.noFault wCid wEmptyStore =
      (PyResult.ok [], [StoreOp.findDocs "lesson"]) :=
  ⟨by decide,
   (listLessons_no_existence_check wCid wEmptyStore).2 (by decide)
     (by intro l hl; simp [wEmptyStore] at hl) (by intro c hc; simp [wEmptyStore] at hc)⟩

/-- A handler outcome that is a normal HTTP 200 value. -/
def isOk {α : Type} : PyResult α → Bool
  | PyResult.ok _ => true
  | _ => false

/-- C7: HealthCheck is total — for every environment and store handle state,
including a missing handle and a failing `list_collection_names` probe, it
returns a normal HTTP 200 response; a probe failure is reported inside the
body as the degraded-status message built from the truncated stringified
failure. -/
theorem testDatabase_total (env : Env) (db : Option DbConn) :
    isOk (test_database env db) = true ∧
    (∀ conn e r, db = some conn → conn.listCollections = Except.error e →
      test_database env db = PyResult.ok r →
      r.database = "⚠️  Connected but Error: " ++ e.take 50) := by
  constructor
  · cases db with
    | none => rfl
    | some conn => cases hc : conn.listCollections <;> simp [test_database, isOk, hc]
  · rintro conn e r rfl hc hr
    simp only [test_database, hc] at hr
    have := (PyResult.ok.injEq _ _).mp hr
    rw [← this]

/-- Environment with no configuration, for the witness. -/
def wEnv : Env := {}

/-- A connected handle whose collection probe raises `boom`. -/
def wConn : DbConn := { name := "mydb", listCollections := Except.error "boom" }

/-- The `/test` response the model produces for `wEnv`/`wConn`. -/
def wResp : TestResponse :=
  { backend := "✅ Running", database := "⚠️  Connected but Error: boom",
    database_url := some "❌ Not Set", database_name := some "❌ Not Set",
    connection_status := "Connected", collections := [] }

set_option maxRecDepth 4000 in
/-- Witness for C7. -/
theorem testDatabase_total_witness :
    isOk (test_database wEnv (some wConn)) = true ∧
    wResp.database = "⚠️  Connected but Error: " ++ "boom".take 50 :=
  ⟨(testDatabase_total wEnv (some wConn)).1,
   (testDatabase_total wEnv (some wConn)).2 wConn "boom" wResp rfl rfl (by decide)⟩

/-- In `create_lesson`, a non-HTTP exception can only be an injected store
failure, and the body raises it with the message of the fault. -/
theorem create_lesson_body_exc_fault (fault : StoreFault) (l : Lesson)
    (s : Store) (m : String)
    (hm : (create_lesson_body fault l s).1 = PyResult.exc m) :
    faultMsg fault = some m := by
  unfold create_lesson_body at hm
  split at hm
  · simp at hm
  · split at hm
    · simp_all [faultMsg]
    · split at hm
      · simp at hm
      · split at hm
        · simp_all [faultMsg]
        · simp at hm

/-- The only HTTP exceptions the body of `create_lesson` raises are 400 and 404. -/
theorem create_lesson_body_http (fault : StoreFault) (l : Lesson) (s : Store)
    (c : Nat) (d : String)
    (hm : (create_lesson_body fault l s).1 = PyResult.httpExc c d) :
    c = 400 ∨ c = 404 := by
  unfold create_lesson_body at hm
  split at hm
  · left
    simp_all
  · split at hm
    · simp at hm
    · split at hm
      · right
        simp_all
      · split at hm
        · simp at hm
        · simp at hm

/-- In `list_lessons`, a non-HTTP exception is an injected store failure or
the response-mapper validation failure. -/
theorem list_lessons_body_exc_fault (fault : StoreFault) (cid : String)
    (s : Store) (m : String)
    (hm : (list_lessons_body fault cid s).1 = PyResult.exc m) :
    faultMsg fault = some m ∨ m = "validation error for LessonResponse" := by
  unfold list_lessons_body at hm
  split at hm
  · simp at hm
  · split at hm
    · left
      simp_all [faultMsg]
    · split at hm
      · simp at hm
      · right
        simp_all

/-- The only HTTP exception the body of `list_lessons` raises is 400. -/
theorem list_lessons_body_http (fault : StoreFault) (cid : String) (s : Store)
    (c : Nat) (d : String)
    (hm : (list_lessons_body fault cid s).1 = PyResult.httpExc c d) :
    c = 400 := by
  unfold list_lessons_body at hm
  split at hm
  · simp_all
  · split at hm
    · simp at hm
    · split at hm
      · simp at hm
      · simp at hm

/-- In `enroll`, a non-HTTP exception can only be an injected store failure,
raised with the message of the fault. -/
theorem enroll_body_exc_fault (fault : StoreFault) (e : Enrollment)
    (s : Store) (m : String)
    (hm : (enroll_body fault e s).1 = PyResult.exc m) :
    faultMsg fault = some m := by
  unfold enroll_body at hm
  split at hm
  · simp at hm
  · split at hm
    · simp_all [faultMsg]
    · split at hm
      · simp at hm
      · split at hm
        · simp_all [faultMsg]
        · simp at hm

/-- The only HTTP exceptions the body of `enroll` raises are 400 and 404. -/
theorem enroll_body_http (fault : StoreFault) (e : Enrollment) (s : Store)
    (c : Nat) (d : String)
    (hm : (enroll_body fault e s).1 = PyResult.httpExc c d) :
    c = 400 ∨ c = 404 := by
  unfold enroll_body at hm
  split at hm
  · left
    simp_all
  · split at hm
    · simp at hm
    · split at hm
      · right
        simp_all
      · split at hm
        · simp at hm
        · simp at hm

/-- C8: at the boundary of `create_lesson`, `list_lessons` and `enroll`, a
non-HTTP exception (always carrying the stringified underlying failure)
becomes `HTTPException(500, str(e))`, while the already-classified client
errors 400/404 raised inside the body pass through unchanged and are never
reclassified. -/
theorem handler_error_classification
    (fault : StoreFault) (l : Lesson) (cid : String) (e : Enrollment) (s : Store) :
    (∀ m, (create_lesson_body fault l s).1 = PyResult.exc m →
      (create_lesson fault l s).1 = PyResult.httpExc 500 m ∧ faultMsg fault = some m) ∧
    (∀ c d, (create_lesson_body fault l s).1 = PyResult.httpExc c d →
      (create_lesson fault l s).1 = PyResult.httpExc c d ∧ (c = 400 ∨ c = 404)) ∧
    (∀ m, (list_lessons_body fault cid s).1 = PyResult.exc m →
      (list_lessons fault cid s).1 = PyResult.httpExc 500 m ∧
      (faultMsg fault = some m ∨ m = "validation error for LessonResponse")) ∧
    (∀ c d, (list_lessons_body fault cid s).1 = PyResult.httpExc c d →
      (list_lessons fault cid s).1 = PyResult.httpExc c d ∧ c = 400) ∧
    (∀ m, (enroll_body fault e s).1 = PyResult.exc m →
      (enroll fault e s).1 = PyResult.httpExc 500 m ∧ faultMsg fault = some m) ∧
    (∀ c d, (enroll_body fault e s).1 = PyResult.httpExc c d →
      (enroll fault e s).1 = PyResult.httpExc c d ∧ (c = 400 ∨ c = 404)) := by
  refine ⟨?_, ?_, ?_, ?_, ?_, ?_⟩
  · intro m hm
    refine ⟨?_, create_lesson_body_exc_fault fault l s m hm⟩
    show handlerBoundary (create_lesson_body fault l s).1 = _
    rw [hm]
    rfl
  · intro c d hm
    refine ⟨?_, create_lesson_body_http fault l s c d hm⟩
    show handlerBoundary (create_lesson_body fault l s).1 = _
    rw [hm]
    rfl
  · intro m hm
    refine ⟨?_, list_lessons_body_exc_fault fault cid s m hm⟩
    show handlerBoundary (list_lessons_body fault cid s).1 = _
    rw [hm]
    rfl
  · intro c d hm
    refine ⟨?_, list_lessons_body_http fault cid s c d hm⟩
    show handlerBoundary (list_lessons_body fault cid s).1 = _
    rw [hm]
    rfl
  · intro m hm
    refine ⟨?_, enroll_body_exc_fault fault e s m hm⟩
    show handlerBoundary (enroll_body fault e s).1 = _
    rw [hm]
    rfl
  · intro c d hm
    refine ⟨?_, enroll_body_http fault e s c d hm⟩
    show handlerBoundary (enroll_body fault e s).1 = _
    rw [hm]
    rfl

/-- Witness for C8: a failing Course point lookup inside `create_lesson`
surfaces as `HTTPException(500, "boom")`. -/
theorem handler_error_classification_witness :
    (create_lesson_body (StoreFault.onFindOne "boom") wLesson wEmptyStore).1 =
      PyResult.exc "boom" ∧
    (create_lesson (StoreFault.onFindOne "boom") wLesson wEmptyStore).1 =
      PyResult.httpExc 500 "boom" ∧
    faultMsg (StoreFault.onFindOne "boom") = some "boom" := by
  have h := (handler_error_classification (StoreFault.onFindOne "boom") wLesson
    wCid wEnrollment wEmptyStore).1 "boom" (by decide)
  exact ⟨by decide, h.1, h.2⟩

/-- C10: `list_courses` tests its query parameters for truthiness, so an
empty-string `category` or `search` imposes no filter at all: the handler
result is identical to the one with the parameter absent, and with both
parameters empty every stored course is returned. -/
theorem listCourses_truthiness (q cat : Option String) (fault : StoreFault)
    (s : Store) :
    list_courses fault (some "") q s = list_courses fault none q s ∧
    list_courses fault cat (some "") s = list_courses fault cat none s ∧
    ((∀ d ∈ s.courses, (to_course_response d).isSome) →
      ∃ rs, mapAll to_course_response s.courses = some rs ∧
        (list_courses StoreFault.noFault (some "") (some "") s).1 = PyResult.ok rs) := by
  have h1 : buildCourseFilter (some "") q = buildCourseFilter none q := by
    simp [buildCourseFilter, truthy]
  have h2 : buildCourseFilter cat (some "") = buildCourseFilter cat none := by
    simp [buildCourseFilter, truthy]
  refine ⟨?_, ?_, ?_⟩
  · simp [list_courses, list_courses_body, h1]
  · simp [list_courses, list_courses_body, h2]
  · intro hmap
    obtain ⟨rs, hrs⟩ := mapAll_total _ _ hmap
    refine ⟨rs, hrs, ?_⟩
    have hfil : s.courses.filter
        (courseMatches (buildCourseFilter (some "") (some ""))) = s.courses :=
      List.filter_eq_self.mpr (fun a _ => rfl)
    simp [list_courses, list_courses_body, hfil, hrs, handlerBoundary]

/-- Witness for C10 on the empty store. -/
theorem listCourses_truthiness_witness :
    (list_courses StoreFault.noFault (some "") (some "") wEmptyStore).1 =
      PyResult.ok [] := by
  obtain ⟨rs, hrs, hok⟩ :=
    (listCourses_truthiness (some "") (some "") StoreFault.noFault wEmptyStore).2.2
      (by intro d hd; simp [wEmptyStore] at hd)
  have hnil : rs = [] := by
    simpa [wEmptyStore, mapAll] using hrs.symm
  exact hnil ▸ hok

/-- A course document as Seed might have left it, except that the `level`
field is absent. -/
def levelMissingDoc : CourseDoc :=
  { oid := 5, title := some "Sample title",
    description := some "Sample description text.",
    category := some "General", author := some "Sample Author" }

/-- Counterexample to C4: on a document lacking only `level`, the Course
mapper does not supply the creation-time default `"Beginner"` — the
`CourseResponse` construction fails (pydantic rejects `None` for the
non-optional `level` field), so the mapper is not total. -/
theorem mapper_missing_level_counterexample :
    levelMissingDoc.level = none ∧ to_course_response levelMissingDoc = none :=
  ⟨rfl, rfl⟩

/-- C4 (amended): the mappers are pure functions that render identifiers as
strings and supply the creation-time defaults for absent `tags`,
`is_premium`, `is_free_access` (Course) and `order` (Lesson); but they are
total only on documents whose required string fields are present — `level`
included, which receives no `"Beginner"` default. -/
theorem mappers_defaults :
    (∀ (d : CourseDoc) t de cat lv au, d.title = some t → d.description = some de →
      d.category = some cat → d.level = some lv → d.author = some au →
      to_course_response d = some
        { id := oidRender d.oid, title := t, description := de, category := cat,
          level := lv, author := au, thumbnail_url := d.thumbnail_url,
          tags := d.tags.getD [], is_premium := d.is_premium.getD false,
          is_free_access := d.is_free_access.getD true }) ∧
    (∀ (d : LessonDoc) t, d.title = some t →
      to_lesson_response d = some
        { id := oidRender d.oid, course_id := pyStr d.course_id, title := t,
          content := d.content, video_url := d.video_url,
          lessonOrder := d.lessonOrder.getD 1 }) := by
  constructor
  · intro d t de cat lv au h1 h2 h3 h4 h5
    simp [to_course_response, h1, h2, h3, h4, h5]
  · intro d t h1
    simp [to_lesson_response, h1]

/-- A lesson document carrying only `_id` and `title`. -/
def wLessonDoc : LessonDoc := { oid := 9, title := some "Welcome" }

/-- Witness for C4 (amended): defaults `order := 1` and `str(None)`
rendering on a lesson document with absent optional fields. -/
theorem mappers_defaults_witness :
    wLessonDoc.title = some "Welcome" ∧
    to_lesson_response wLessonDoc = some
      { id := oidRender 9, course_id := "None", title := "Welcome",
        content := none, video_url := none, lessonOrder := 1 } :=
  ⟨rfl, mappers_defaults.2 wLessonDoc "Welcome" rfl⟩

/-- The ListCourses matching predicate exactly as the specification and C3
word it: the search string occurs as a case-insensitive substring of the
title or of the description (logical OR); when a category string is
supplied, the stored category must additionally equal it. -/
def claimedCourseMatch (category : Option String) (q : String) (d : CourseDoc) : Bool :=
  (match category with
   | some c => d.category == some c
   | none => true) &&
  ((d.title.isSome && hasSubstr (lowerChars q) (lowerChars (d.title.getD ""))) ||
   (d.description.isSome && hasSubstr (lowerChars q) (lowerChars (d.description.getD ""))))

/-- A stored course whose category is `"Programming"` and whose texts
contain the letter `x`. -/
def c3Doc : CourseDoc :=
  { oid := 1, title := some "Intro to X", description := some "Learn x basics here.",
    category := some "Programming", level := some "Beginner", author := some "Ann" }

/-- A store holding only `c3Doc`. -/
def c3Store : Store := { courses := [c3Doc], nextOid := 2 }

/-- The response `list_courses` produces for `c3Doc`. -/
def c3Resp : CourseResponse :=
  { id := oidRender 1, title := "Intro to X",
    description := "Learn x basics here.", category := "Programming",
    level := "Beginner", author := "Ann", thumbnail_url := none, tags := [],
    is_premium := false, is_free_access := true }

/-- Counterexample to C3 as stated: with both parameters supplied —
`category = ""` and the non-empty search `"x"` — the handler returns
`c3Doc` although its category does not equal the supplied category string
(the empty `category` is falsy and imposes no filter, cf. C10). -/
theorem listCourses_search_counterexample :
    c3Doc.category = some "Programming" ∧
    claimedCourseMatch (some "") "x" c3Doc = false ∧
    (list_courses StoreFault.noFault (some "") (some "x") c3Store).1 =
      PyResult.ok [c3Resp] :=
  ⟨rfl, rfl, rfl⟩

/-- C3 (amended): for every non-empty search string and a category filter
that is absent or non-empty, ListCourses returns exactly the stored courses
matching the claimed predicate — case-insensitive substring of title OR
description, ANDed with category equality when a category is supplied. -/
theorem listCourses_search_semantics (category : Option String) (q : String)
    (s : Store) (hq : q ≠ "") (hcat : ∀ c, category = some c → c ≠ "")
    (hmap : ∀ d ∈ s.courses, (to_course_response d).isSome) :
    ∃ rs, mapAll to_course_response
        (s.courses.filter (claimedCourseMatch category q)) = some rs ∧
      (list_courses StoreFault.noFault category (some q) s).1 = PyResult.ok rs := by
  have hfeq : buildCourseFilter category (some q) =
      { category := category, search := some q } := by
    cases category with
    | none => simp [buildCourseFilter, truthy, hq]
    | some c =>
        have hc : c ≠ "" := hcat c rfl
        simp [buildCourseFilter, truthy, hq, hc]
  have hmatch : ∀ d ∈ s.courses,
      courseMatches { category := category, search := some q } d
        = claimedCourseMatch category q d := by
    intro d _
    rfl
  have hfil : s.courses.filter (courseMatches (buildCourseFilter category (some q)))
      = s.courses.filter (claimedCourseMatch category q) := by
    rw [hfeq]
    exact List.filter_congr hmatch
  obtain ⟨rs, hrs⟩ := mapAll_total to_course_response
    (s.courses.filter (claimedCourseMatch category q))
    (fun d hd => hmap d (List.mem_of_mem_filter hd))
  exact ⟨rs, hrs, by simp [list_courses, list_courses_body, hfil, hrs, handlerBoundary]⟩

/-- A stored course matching `category="Programming"`, `search="python"`. -/
def wSearchDoc1 : CourseDoc :=
  { oid := 1, title := some "Python for Beginners",
    description := some "Start coding with Python from scratch.",
    category := some "Programming", level := some "Beginner", author := some "Jane Doe" }

/-- A stored course matching neither filter. -/
def wSearchDoc2 : CourseDoc :=
  { oid := 2, title := some "UI Design Fundamentals",
    description := some "Learn color and typography.",
    category := some "Design", level := some "Beginner", author := some "John Smith" }

/-- A store holding the two sample courses. -/
def wSearchStore : Store := { courses := [wSearchDoc1, wSearchDoc2], nextOid := 3 }

/-- The response for `wSearchDoc1`. -/
def wSearchResp : CourseResponse :=
  { id := oidRender 1, title := "Python for Beginners",
    description := "Start coding with Python from scratch.",
    category := "Programming", level := "Beginner", author := "Jane Doe",
    is_premium := false, is_free_access := true }

/-- Witness for C3 (amended): `category="Programming"`, `search="python"`
selects exactly the Python course, case-insensitively. -/
theorem listCourses_search_semantics_witness :
    (list_courses StoreFault.noFault (some "Programming") (some "python") wSearchStore).1 =
      PyResult.ok [wSearchResp] := by
  obtain ⟨rs, hrs, hok⟩ := listCourses_search_semantics (some "Programming") "python"
    wSearchStore (by decide)
    (by intro c hc; cases hc; decide)
    (by intro d hd
        simp [wSearchStore, wSearchDoc1, wSearchDoc2] at hd
        rcases hd with rfl | rfl <;> decide)
  have h2 : mapAll to_course_response
      (wSearchStore.courses.filter (claimedCourseMatch (some "Programming") "python")) =
      some [wSearchResp] := by decide
  have hrs2 : rs = [wSearchResp] := by
    rw [h2] at hrs
    exact (Option.some.inj hrs).symm
  rw [← hrs2]
  exact hok

/-- A field present as a string within the given length bounds. -/
def strWithin (v : Option JValue) (lo hi : Nat) : Bool :=
  match v with
  | some (JValue.jStr s) => lo ≤ s.length && s.length ≤ hi
  | _ => false

/-- A `str`-typed optional field: absent or a string. -/
def strTyped (v : Option JValue) : Bool :=
  match v with
  | none => true
  | some (JValue.jStr _) => true
  | some _ => false

/-- A `bool`-typed optional field: absent or a boolean. -/
def boolTyped (v : Option JValue) : Bool :=
  match v with
  | none => true
  | some (JValue.jBool _) => true
  | some _ => false

/-- A `List[str]`-typed optional field: absent or a list of strings. -/
def tagsTyped (v : Option JValue) : Bool :=
  match v with
  | none => true
  | some (JValue.jList xs) =>
      xs.all (fun x => match x with | JValue.jStr _ => true | _ => false)
  | some _ => false

/-- The `thumbnail_url` condition exactly as C6 words it: when present (and
not `null`), a well-formed absolute URL. -/
def urlOkB (v : Option JValue) : Bool :=
  match v with
  | none => true
  | some JValue.jNull => true
  | some (JValue.jStr s) => isHttpUrl s
  | some _ => false

/-- The Course-schema success condition exactly as C6 words it: the four
required fields present as strings within their bounds, and
`thumbnail_url`, when present, a well-formed absolute URL. -/
def claimedCourseOk (r : RawCourse) : Bool :=
  strWithin r.title 3 120 && strWithin r.description 10 2000 &&
  strWithin r.category 2 60 && strWithin r.author 2 80 && urlOkB r.thumbnail_url

/-- Well-typedness of the optional fields, which the C6 success condition
omits: `level` a string, `tags` a list of strings, the two flags booleans. -/
def optTypedOk (r : RawCourse) : Bool :=
  strTyped r.level && tagsTyped r.tags &&
  boolTyped r.is_premium && boolTyped r.is_free_access

theorem reqStr_isSome (v : Option JValue) (lo hi : Nat) :
    (reqStr v lo hi).isSome = strWithin v lo hi := by
  cases v with
  | none => rfl
  | some j =>
      cases j with
      | jStr s => cases h : lo ≤ s.length && s.length ≤ hi <;>
          simp [reqStr, strWithin, h]
      | jNull => rfl
      | jInt n => rfl
      | jBool b => rfl
      | jList xs => rfl

theorem optStrDefault_isSome (v : Option JValue) (d : String) :
    (optStrDefault v d).isSome = strTyped v := by
  cases v with
  | none => rfl
  | some j => cases j <;> rfl

theorem optUrl_isSome (v : Option JValue) :
    (optUrl v).isSome = urlOkB v := by
  cases v with
  | none => rfl
  | some j =>
      cases j with
      | jStr s => cases h : isHttpUrl s <;> simp [optUrl, urlOkB, h]
      | jNull => rfl
      | jInt n => rfl
      | jBool b => rfl
      | jList xs => rfl

theorem strList_isSome (v : Option JValue) :
    (strList v).isSome = tagsTyped v := by
  cases v with
  | none => rfl
  | some j =>
      cases j with
      | jList xs =>
          simp only [strList, tagsTyped, mapAll_isSome]
          congr 1
          funext x
          cases x <;> rfl
      | jNull => rfl
      | jStr s => rfl
      | jInt n => rfl
      | jBool b => rfl

theorem optBool_isSome (v : Option JValue) (d : Bool) :
    (optBool v d).isSome = boolTyped v := by
  cases v with
  | none => rfl
  | some j => cases j <;> rfl

/-- Schema validation succeeds exactly when all nine field checks do. -/
theorem validateCourse_isSome (r : RawCourse) :
    (validateCourse r).isSome =
      (((reqStr r.title 3 120).isSome && (reqStr r.description 10 2000).isSome &&
        (reqStr r.category 2 60).isSome && (reqStr r.author 2 80).isSome &&
        (optUrl r.thumbnail_url).isSome) &&
       ((optStrDefault r.level "Beginner").isSome && (strList r.tags).isSome &&
        (optBool r.is_premium false).isSome && (optBool r.is_free_access true).isSome)) := by
  unfold validateCourse
  cases h1 : reqStr r.title 3 120 <;>
  cases h2 : reqStr r.description 10 2000 <;>
  cases h3 : reqStr r.category 2 60 <;>
  cases h4 : optStrDefault r.level "Beginner" <;>
  cases h5 : reqStr r.author 2 80 <;>
  cases h6 : optUrl r.thumbnail_url <;>
  cases h7 : strList r.tags <;>
  cases h8 : optBool r.is_premium false <;>
  cases h9 : optBool r.is_free_access true <;>
  simp

/-- A raw Course body whose required fields are all valid strings within
bounds, but whose `tags` field is the number 5. -/
def c6Raw : RawCourse :=
  { title := some (JValue.jStr "Go Basics"),
    description := some (JValue.jStr "Learn Go in ten lessons."),
    category := some (JValue.jStr "Programming"),
    author := some (JValue.jStr "A. Dev"),
    tags := some (JValue.jInt 5) }

/-- Counterexample to C6 as stated: `c6Raw` satisfies the claimed success
condition (required fields present as bounded strings, no thumbnail), yet
schema validation fails, because the ill-typed `tags` field is also
checked. -/
theorem courseValidation_counterexample :
    claimedCourseOk c6Raw = true ∧ validateCourse c6Raw = none :=
  ⟨rfl, rfl⟩

/-- C6 (amended): Course schema validation succeeds exactly when the
required fields are present as strings within their bounds, the
`thumbnail_url` (when present) is a well-formed absolute URL, AND every
optional field is well-typed; on success absent optional fields receive the
§3 defaults; on failure the request is rejected as a client error with no
store interaction and an unchanged store. -/
theorem courseValidation_semantics (r : RawCourse) (s : Store) (fault : StoreFault) :
    ((validateCourse r).isSome = (claimedCourseOk r && optTypedOk r)) ∧
    (∀ c, validateCourse r = some c →
      (r.level = none → c.level = "Beginner") ∧ (r.tags = none → c.tags = []) ∧
      (r.is_premium = none → c.is_premium = false) ∧
      (r.is_free_access = none → c.is_free_access = true)) ∧
    (validateCourse r = none →
      create_course_endpoint fault r s = (PyResult.httpExc 422 "validation_error", s, [])) := by
  refine ⟨?_, ?_, ?_⟩
  · rw [validateCourse_isSome]
    simp only [reqStr_isSome, optStrDefault_isSome, optUrl_isSome, strList_isSome,
      optBool_isSome, claimedCourseOk, optTypedOk]
  · intro c hc
    unfold validateCourse at hc
    split at hc
    · injection hc with hc
      subst hc
      refine ⟨?_, ?_, ?_, ?_⟩ <;> intro h0 <;> simp_all [optStrDefault, strList, optBool]
    · exact absurd hc (by simp)
  · intro hn
    simp [create_course_endpoint, hn]

/-- Witness for C6 (amended): the ill-typed body is rejected with HTTP 422
and no store operation. -/
theorem courseValidation_semantics_witness :
    validateCourse c6Raw = none ∧
    create_course_endpoint StoreFault.noFault c6Raw wEmptyStore =
      (PyResult.httpExc 422 "validation_error", wEmptyStore, []) :=
  ⟨rfl, (courseValidation_semantics c6Raw wEmptyStore StoreFault.noFault).2.2 rfl⟩

/-- C9: CreateCourse on a valid input returns the rendered fresh identifier,
and ListCourses with no filters on the resulting store includes the response
whose id is that identifier and whose fields equal the validated input. -/
theorem createCourse_then_listCourses (c : Course) (s : Store)
    (hmap : ∀ d ∈ s.courses, (to_course_response d).isSome) :
    (create_course StoreFault.noFault c s).1 = PyResult.ok (oidRender s.nextOid) ∧
    (∃ rs, (list_courses StoreFault.noFault none none
        ((create_course StoreFault.noFault c s).2.1)).1 = PyResult.ok rs ∧
      ({ id := oidRender s.nextOid, title := c.title, description := c.description,
         category := c.category, level := c.level, author := c.author,
         thumbnail_url := c.thumbnail_url, tags := c.tags,
         is_premium := c.is_premium, is_free_access := c.is_free_access } :
        CourseResponse) ∈ rs) := by
  constructor
  · rfl
  · have hnew : to_course_response (courseToDoc c s.nextOid) = some
        { id := oidRender s.nextOid, title := c.title, description := c.description,
          category := c.category, level := c.level, author := c.author,
          thumbnail_url := c.thumbnail_url, tags := c.tags,
          is_premium := c.is_premium, is_free_access := c.is_free_access } := rfl
    obtain ⟨bs, hbs⟩ := mapAll_total to_course_response s.courses hmap
    have happ := mapAll_append_singleton to_course_response _ _ hnew s.courses bs hbs
    have hs2 : (create_course StoreFault.noFault c s).2.1 =
        { s with courses := s.courses ++ [courseToDoc c s.nextOid],
                 nextOid := s.nextOid + 1 } := rfl
    have hfil : (s.courses ++ [courseToDoc c s.nextOid]).filter
        (courseMatches (buildCourseFilter none none)) =
        s.courses ++ [courseToDoc c s.nextOid] :=
      List.filter_eq_self.mpr (fun a _ => rfl)
    refine ⟨bs ++
      [{ id := oidRender s.nextOid, title := c.title, description := c.description,
         category := c.category, level := c.level, author := c.author,
         thumbnail_url := c.thumbnail_url, tags := c.tags,
         is_premium := c.is_premium, is_free_access := c.is_free_access }], ?_, ?_⟩
    · rw [hs2]
      simp [list_courses, list_courses_body, hfil, happ, handlerBoundary]
    · exact List.mem_append_right bs (List.mem_singleton.mpr rfl)

/-- A valid Course input, with every optional field left to its default. -/
def wCourse : Course :=
  { title := "Go Basics", description := "Learn Go in ten lessons.",
    category := "Programming", author := "A. Dev" }

/-- Witness for C9 on the empty store. -/
theorem createCourse_then_listCourses_witness :
    (create_course StoreFault.noFault wCourse wEmptyStore).1 =
      PyResult.ok (oidRender 0) := by
  have h := createCourse_then_listCourses wCourse wEmptyStore
    (by intro d hd; simp [wEmptyStore] at hd)
  exact h.1

end Elearn
